import Mathlib

/-!
Shallow embedding of the AsyncTwitchBotAPI repository (Python) in Lean 4,
used to settle the specification claims about its dispatch, parsing,
IRC-client and scheduler components.

Source files embedded:
- twitchbot/_bot.py            (TwitchBot._call_handlers, _run_task)
- twitchbot/_scheduler.py      (Scheduler.schedule_task wrapper loop, stop)
- twitchbot/irc/irc_client.py  (IRCClient.connect, send_message, join_channel)
- twitchbot/types/_sender.py   (Sender.__init__)
- twitchbot/types/_subscription.py (Subscription.from_response)

Conventions: Python strings are `List Char`; Python exceptions that can
escape a modelled function are an explicit `PyExc` error in `Except`;
a Python `try/except Exception: log` block that swallows an exception is
modelled by returning the normal (logged, no-op) result, matching the code.
-/

/-- Python exceptions that the embedded code can raise.
`attributeError` models `None.group(...)` when an `re.search` fails;
`valueError` models `int()` on a non-numeric string; `indexError` models
`args[0]` on an empty list.  `isNotInChannelError` mirrors the exception
class defined in irc_client.py (which the code never raises). -/
inductive PyExc where
  | notConnectedError
  | isNotInChannelError
  | attributeError
  | valueError
  | indexError
deriving DecidableEq, Repr

/-- Python runtime values that a user-supplied predicate (`func` filter)
may return.  Only the distinctions the dispatcher can observe are kept:
the dispatcher compares the result against the singleton `False` by
identity (`is False`), so booleans, numbers, `None`, strings and lists
suffice. -/
inductive PyVal where
  | bool : Bool → PyVal
  | int : Int → PyVal
  | str : String → PyVal
  | list : List PyVal → PyVal
  | none : PyVal

/-- Python `x is False`: true only for the boolean singleton `False`.
Falsy values such as `0`, `None`, `""`, `[]` are NOT `is False`. -/
def PyVal.isFalse : PyVal → Bool
  | .bool false => true
  | _ => false

/-- Whether a Python value is a bool (`True` or `False`). -/
def PyVal.isBool : PyVal → Bool
  | .bool _ => true
  | _ => false

/-! ### Regex-capture helper

The repository only uses `re.search` with patterns of the shape
`LITERAL(.*?);` (a literal prefix, a lazy capture, a closing `;`).
For such a pattern, `re.search` returns the capture at the leftmost
start position where the whole pattern matches: the literal prefix
matches and a `;` follows before any newline (`.` does not match
`'\n'`); the lazy `(.*?)` takes the shortest run, i.e. everything up to
the FIRST `;` after the prefix. -/

/-- Characters of `cs` up to (excluding) the first occurrence of `stop`;
fails if `stop` does not occur before a newline or the end (the lazy
`.` of the pattern cannot cross a newline). -/
def captureTo (stop : Char) : List Char → Option (List Char)
  | [] => Option.none
  | c :: rest =>
    if c = stop then some []
    else if c = '\n' then Option.none
    else (captureTo stop rest).map (fun g => c :: g)

/-- Semantics of `re.search(pre + "(.*?)" + stop, cs).group(1)`: scan start positions
left to right; at the first position where `pre` matches and a `stop`
follows (before a newline), return the capture between them. -/
def searchCapture (pre : List Char) (stop : Char) : List Char → Option (List Char)
  | [] => Option.none
  | c :: rest =>
    match (if pre.isPrefixOf (c :: rest) then captureTo stop ((c :: rest).drop pre.length) else Option.none) with
    | some g => some g
    | Option.none => searchCapture pre stop rest

/-- Python whitespace as stripped by `int()` (`str.strip` class). -/
def pyIsSpace (c : Char) : Bool :=
  c = ' ' || c = '\t' || c = '\n' || c = '\r' || c = '\x0b' || c = '\x0c'

/-- Strip leading and trailing Python whitespace. -/
def pyStrip (cs : List Char) : List Char :=
  ((cs.dropWhile pyIsSpace).reverse.dropWhile pyIsSpace).reverse

/-- Decimal digit value of a character, if any. -/
def pyDigit (c : Char) : Option Nat :=
  if '0' ≤ c ∧ c ≤ '9' then some (c.toNat - '0'.toNat) else Option.none

/-- Accumulate a run of decimal digits left to right. -/
def digitsValAux : List Char → Nat → Option Nat
  | [], acc => some acc
  | c :: rest, acc =>
    match pyDigit c with
    | some d => digitsValAux rest (acc * 10 + d)
    | Option.none => Option.none

/-- Value of a nonempty all-digit string. -/
def digitsVal : List Char → Option Nat
  | [] => Option.none
  | cs => digitsValAux cs 0

/-- Python `int(s)` on an ASCII decimal string: optional surrounding
whitespace, optional sign, nonempty digit run; anything else raises
`ValueError` (modelled as `Option.none`). -/
def pyInt (cs : List Char) : Option Int :=
  match pyStrip cs with
  | '-' :: ds => (digitsVal ds).map (fun n => -(n : Int))
  | '+' :: ds => (digitsVal ds).map (fun n => (n : Int))
  | ds => (digitsVal ds).map (fun n => (n : Int))

/-! ### twitchbot/types/_subscription.py -/

/-- A Twitch subscription record (`Subscription.__init__`). `month` is a
Python int (so `Int`). -/
structure Subscription where
  subscribed : Bool
  month : Int
deriving DecidableEq, Repr

/-- Embeds `Subscription.from_response` (lines 40-57 of _subscription.py):

    has_sub = bool(int(re.search("subscriber=(.*?);", resp).group(1)))
    sub_months = re.search("@badge-info=subscriber\/(.*?);", resp)
    sub_months = int(sub_months.group(1)) if sub_months else 0
    return Subscription(has_sub, sub_months)

A failed first search raises `AttributeError` (`.group` on `None`); a
non-numeric capture raises `ValueError` from `int()`.  Note the tenure
pattern requires the literal leading `@`. -/
def Subscription.from_response (resp : List Char) : Except PyExc Subscription :=
  match searchCapture "subscriber=".data ';' resp with
  | Option.none => .error .attributeError
  | some g =>
    match pyInt g with
    | Option.none => .error .valueError
    | some v =>
      match searchCapture "@badge-info=subscriber/".data ';' resp with
      | Option.none => .ok ⟨v != 0, 0⟩
      | some g2 =>
        match pyInt g2 with
        | Option.none => .error .valueError
        | some m => .ok ⟨v != 0, m⟩

deriving instance DecidableEq for Except

/-! ### twitchbot/types/_sender.py -/

/-- A call `re.search("badges=PATTERN", resp)` with a constant pattern is a
substring test (`Sender._is_broadcaster` / `_is_vip` / `_is_mod`);
also Python's `PATTERN in resp`. -/
def hasPattern (pat : List Char) : List Char → Bool
  | [] => pat.isEmpty
  | c :: rest => pat.isPrefixOf (c :: rest) || hasPattern pat rest

/-- Split at the first occurrence of `c`: `(before, after)`. Fails if `c`
does not occur. -/
def takeUntil (c : Char) : List Char → Option (List Char × List Char)
  | [] => Option.none
  | x :: xs =>
    if x = c then some ([], xs)
    else (takeUntil c xs).map (fun p => (x :: p.1, p.2))

/-- Match of `.*:(.*?)!.*?:(.*)` within one newline-free line, as Python's
backtracking resolves it: the greedy leading `.*` selects the LAST `:`
that is still followed (later in the line) by a `!` and then another `:`;
the lazy `(.*?)` then ends at the first `!` after that `:`; the lazy
`.*?` ends at the first `:` after that `!`; the final greedy `(.*)` takes
the rest of the line.  Returns `(username, message)`. -/
def lineUserMsg : List Char → Option (List Char × List Char)
  | [] => Option.none
  | x :: xs =>
    match lineUserMsg xs with
    | some r => some r
    | Option.none =>
      if x = ':' then
        match takeUntil '!' xs with
        | Option.none => Option.none
        | some (user, rest) =>
          match takeUntil ':' rest with
          | Option.none => Option.none
          | some (_, msg) => some (user, msg)
      else Option.none

/-- Semantics of `re.search(".*:(.*?)!.*?:(.*)", resp).groups()`: since `.` never
crosses a newline, the whole match lives inside one line; `re.search`
picks the first line containing a match. -/
def searchUserMsg (resp : List Char) : Option (List Char × List Char) :=
  (resp.splitOn '\n').findSome? lineUserMsg

/-- A parsed chat sender (`Sender` attributes). -/
structure Sender where
  user_id : List Char
  username : List Char
  message : List Char
  subscription : Subscription
  moderator : Bool
  broadcaster : Bool
  vip : Bool
deriving DecidableEq, Repr

/-- Embeds `Sender.__init__` (lines 64-70 of _sender.py):

    self._user_id = re.search("user-id=(.*?);", resp).group(1)
    self._username, self._message = re.search(".*:(.*?)!.*?:(.*)", resp).groups()
    self._subscription = Subscription.from_response(resp)
    self._moderator = self._is_mod(resp)
    self._broadcaster = self._is_broadcaster(resp)
    self._vip = self._is_vip(resp)

A search with no match returns `None` and the immediate `.group`/`.groups`
call raises `AttributeError`; there is no `MalformedEventError` anywhere
in the repository.  Evaluation order (user-id first) is preserved. -/
def Sender.init (resp : List Char) : Except PyExc Sender :=
  match searchCapture "user-id=".data ';' resp with
  | Option.none => .error .attributeError
  | some uid =>
    match searchUserMsg resp with
    | Option.none => .error .attributeError
    | some (user, msg) =>
      match Subscription.from_response resp with
      | .error e => .error e
      | .ok sub =>
        .ok ⟨uid, user, msg, sub,
             hasPattern "badges=moderator/1".data resp,
             hasPattern "badges=broadcaster/1".data resp,
             hasPattern "badges=vip/1".data resp⟩

/-! ### twitchbot/_bot.py — handler registry and dispatch -/

/-- One entry of `TwitchBot._messages_handlers`, as built by
`_build_handler_dict` (lines 81-96): the `filters` dict keeps only the
keyword filters whose value is not `None`, so an absent filter is
`Option.none` here.  `commands` is the optional trigger list, `func` the
optional predicate over the sender.  The handler callback itself is
identified by its position in the registration list (dispatch invokes it
asynchronously; which callback runs, and with which arguments, is what
we verify).  `S` is the sender type, `A` the token (string) type. -/
structure HandlerReg (S A : Type) where
  commands : Option (List A)
  func : Option (S → PyVal)

/-- The scanning loop of `TwitchBot._call_handlers` (lines 129-144):

    for message_handler in self._messages_handlers:
        filters = message_handler["filters"]
        if ("commands" in filters and cmd in filters["commands"]) or not "commands" in filters:
            if "func" in filters and filters["func"](sender) is False:
                continue
            task = asyncio.create_task(message_handler["function"](sender,
                       cmd_args if "commands" in filters else args))
            ...
            return True
    return None

Returns the index of the invoked registration together with the argument
list passed to its callback, or `Option.none` when no registration was
invoked (Python returns `None`).  `i` is the index of the head of the
remaining list. -/
def callLoop {S A : Type} [BEq A] (sender : S) (cmd : A) (cmdArgs args : List A) :
    List (HandlerReg S A) → Nat → Option (Nat × List A)
  | [], _ => Option.none
  | h :: rest, i =>
    if (match h.commands with
        | some cs => cs.contains cmd
        | Option.none => true) then
      if (match h.func with
          | some f => PyVal.isFalse (f sender)
          | Option.none => false) then
        callLoop sender cmd cmdArgs args rest (i + 1)
      else
        some (i, match h.commands with
                 | some _ => cmdArgs
                 | Option.none => args)
    else callLoop sender cmd cmdArgs args rest (i + 1)

/-- Embeds `TwitchBot._call_handlers` (lines 116-144): `cmd = args[0]`,
`cmd_args = args[1:]` (an `IndexError` on an empty list), then the scan
above. -/
def callHandlers {S A : Type} [BEq A] (hs : List (HandlerReg S A)) (sender : S)
    (args : List A) : Except PyExc (Option (Nat × List A)) :=
  match args with
  | [] => .error .indexError
  | cmd :: cmdArgs => .ok (callLoop sender cmd cmdArgs (cmd :: cmdArgs) hs 0)

/-- Spec-side definition, following the words of the claim: a
registration matches when its command list (if present) contains the
command word and its predicate (if present) returns `True`. -/
def specRegMatches {S A : Type} [BEq A] (h : HandlerReg S A) (sender : S) (cmd : A) : Bool :=
  (match h.commands with
   | some cs => cs.contains cmd
   | Option.none => true)
  &&
  (match h.func with
   | some f => (match f sender with | PyVal.bool true => true | _ => false)
   | Option.none => true)

/-- Spec-side definition: index of the first matching registration. -/
def specFirstMatch {S A : Type} [BEq A] (sender : S) (cmd : A) :
    List (HandlerReg S A) → Option Nat
  | [] => Option.none
  | h :: rest =>
    if specRegMatches h sender cmd then some 0
    else (specFirstMatch sender cmd rest).map (fun n => n + 1)

/-! ### twitchbot/_bot.py — receive-loop body -/

/-- Python `str.rstrip()`: drop trailing whitespace. -/
def pyRstrip (cs : List Char) : List Char :=
  (cs.reverse.dropWhile pyIsSpace).reverse

/-- Outcome of one iteration of the receive loop for one response. -/
inductive RunStep where
  | dispatched : Nat → List (List Char) → RunStep
  | chatLogged : RunStep
  | botLogged : RunStep
  | idle : RunStep
deriving DecidableEq, Repr

/-- The body of the `while self._running` loop of `TwitchBot._run_task`
(lines 155-165), applied to one response `resp`:

    if "PRIVMSG" in resp:
        sender = Sender(resp)
        args = sender.message.rstrip().split(" ")
        if args and len(args) > 0:
            if not await self._call_handlers(sender, args):
                chat_log.info(...)
    elif len(resp) > 0:
        bot_log.info(resp)

There is NO try/except around `Sender(resp)` or `_call_handlers`: an
exception raised there (the `.error` branch) escapes `_run_task` and
terminates the receive loop. -/
def runLoopBody (hs : List (HandlerReg Sender (List Char))) (resp : List Char) :
    Except PyExc RunStep :=
  if hasPattern "PRIVMSG".data resp then
    match Sender.init resp with
    | .error e => .error e
    | .ok sender =>
      let args := (pyRstrip sender.message).splitOn ' '
      if !args.isEmpty then
        match callHandlers hs sender args with
        | .error e => .error e
        | .ok (some r) => .ok (.dispatched r.1 r.2)
        | .ok Option.none => .ok .chatLogged
      else .ok .idle
  else if resp.length > 0 then .ok .botLogged
  else .ok .idle

/-! ### twitchbot/irc/irc_client.py -/

/-- The connection-relevant state of an `IRCClient` (its `__init__`,
lines 68-84): `sock` holds the raw socket's file descriptor when a
socket object exists (`fileno()` is `-1` after `close()`); `reader` /
`writer` record whether the asyncio stream pair is present (`None`
otherwise); `channel` is `self._channel` (starts as `None`). -/
structure IRCClient where
  sock : Option Int
  username : String
  oauth : String
  channel : Option String
  reader : Bool
  writer : Bool
deriving DecidableEq, Repr

/-- Embeds `IRCClient._is_connected` (lines 86-93):
`self._sock is not None and self._sock.fileno() != -1`. -/
def IRCClient.is_connected (st : IRCClient) : Bool :=
  match st.sock with
  | some fd => fd != -1
  | Option.none => false

/-- The three handshake lines `connect` writes, in order (lines 103-105):
capability request, credential, nickname. -/
def IRCClient.handshakeLines (st : IRCClient) : List String :=
  ["CAP REQ :twitch.tv/tags\n",
   "PASS " ++ st.oauth ++ "\n",
   "NICK " ++ st.username ++ "\n"]

/-- Embeds `IRCClient.connect` (lines 95-106): if not already connected, open a
fresh socket (a fresh socket has a valid, non-negative descriptor;
modelled as `0`), open the stream pair, write the three handshake lines
and drain.  Otherwise do nothing.  Returns the new state and the lines
written. -/
def IRCClient.connect (st : IRCClient) : IRCClient × List String :=
  if !st.is_connected then
    ({ st with sock := some 0, reader := true, writer := true }, st.handshakeLines)
  else (st, [])

/-- Python string interpolation of an `Optional[str]`: `None` prints as
`"None"`. -/
def pyShowOpt : Option String → String
  | Option.none => "None"
  | some s => s

/-- Embeds `IRCClient.send_message` (lines 135-152):

    if not self._is_connected():
        raise NotConnectedError()
    try:
        if self._writer is None:
            raise NotConnectedError()
        self._writer.write(f"PRIVMSG #{self._channel} :{message}\n".encode("utf-8"))
        await self._writer.drain()
    except Exception as e:
        logger.error(...)

The first `raise` is outside any try and propagates; the second is
caught by the function's own `except`, which logs and swallows it (no
line is written).  There is no check of `self._channel`: with no channel
joined the literal text `None` is interpolated into the line.  Returns
the lines written. -/
def IRCClient.send_message (st : IRCClient) (message : String) :
    Except PyExc (List String) :=
  if !st.is_connected then .error .notConnectedError
  else if !st.writer then .ok []
  else .ok ["PRIVMSG #" ++ pyShowOpt st.channel ++ " :" ++ message ++ "\n"]

/-- Embeds `IRCClient.join_channel` (lines 168-184):

    try:
        if self._writer is None:
            raise NotConnectedError()
        self._writer.write(f"JOIN #{channel}\n".encode("utf-8"))
        await self._writer.drain()
        self._channel = channel
        logger.info(...)
    except Exception as e:
        logger.error(f"Error while joining channel: {e}")

The whole body sits inside `try/except Exception`, so the
`NotConnectedError` the code raises is caught by the same function,
logged, and swallowed: `join_channel` never raises, and on that path
nothing is written and the channel is not recorded.  Returns the new
state and the lines written. -/
def IRCClient.join_channel (st : IRCClient) (channel : String) :
    IRCClient × List String :=
  if !st.writer then (st, [])
  else ({ st with channel := some channel }, ["JOIN #" ++ channel ++ "\n"])

/-! ### twitchbot/_scheduler.py -/

/-- Observable events of one scheduled-task wrapper: an interval sleep
completing, and the callback firing. -/
inductive SchedEv where
  | sleep
  | fire
deriving DecidableEq, Repr

/-- The wrapper loop built by `Scheduler.schedule_task` (lines 56-69):

    count = 0
    while self._running and (repeat == -1 or count < repeat):
        await asyncio.sleep(time)
        if not self._running:
            break
        await func(*args, **kwargs)
        count += 1

`self._running` is shared mutable state read at two points per
iteration (the `while` guard and the post-sleep check); we model the
sequence of values the wrapper observes as a stream `running : Nat → Bool`
indexed by observation number (`obs`), which increases by 2 per
iteration.  `fuel` bounds the number of iterations simulated; the
returned Bool is `true` when the loop exited (by guard or break) within
`fuel` iterations and `false` when it was still looping.  The event list
records each completed sleep and each callback firing, in order. -/
def wrapperGo (running : Nat → Bool) (rep : Int) (obs count : Nat) :
    Nat → List SchedEv × Bool
  | 0 => ([], false)
  | fuel + 1 =>
    if running obs && (rep == -1 || (count : Int) < rep) then
      if !running (obs + 1) then ([SchedEv.sleep], true)
      else
        let r := wrapperGo running rep (obs + 2) (count + 1) fuel
        (SchedEv.sleep :: SchedEv.fire :: r.1, r.2)
    else ([], true)

/-- A trace of `n` full iterations of the wrapper loop: sleep then fire, `n` times. -/
def fireCycles : Nat → List SchedEv
  | 0 => []
  | n + 1 => SchedEv.sleep :: SchedEv.fire :: fireCycles n

/-- Number of callback firings in a wrapper trace. -/
def countFires (evs : List SchedEv) : Nat :=
  evs.countP (fun e => match e with | SchedEv.fire => true | _ => false)

/-- Number of completed sleeps in a wrapper trace. -/
def countSleeps (evs : List SchedEv) : Nat :=
  evs.countP (fun e => match e with | SchedEv.sleep => true | _ => false)

/-- Embeds the `Scheduler.__init__` state: the list of registered wrappers (kept
abstract as `τ`) and the shared `_running` flag. -/
structure Scheduler (τ : Type) where
  scheduled_tasks : List τ
  running : Bool

/-- Embeds `Scheduler.stop` (lines 81-88): sets `self._running = False` and
nothing else — it does not touch the task list and has no cancellation
primitive. -/
def Scheduler.stop {τ : Type} (s : Scheduler τ) : Scheduler τ :=
  { s with running := false }

/-! ### Helper lemmas -/

/-- With the running flag held true and a non-negative repeat bound `N`,
the wrapper loop performs exactly the remaining `N - count` sleep/fire
iterations and ends. -/
theorem wrapperGo_true_bounded (N : Nat) :
    ∀ (fuel obs count : Nat), count ≤ N → N - count < fuel →
      wrapperGo (fun _ => true) (N : Int) obs count fuel
        = (fireCycles (N - count), true) := by
  intro fuel
  induction fuel with
  | zero => intro obs count _ h; omega
  | succ f ih =>
    intro obs count hle hlt
    by_cases hcnt : count < N
    · have hrec := ih (obs + 2) (count + 1) (by omega) (by omega)
      have hcyc : N - count = (N - (count + 1)) + 1 := by omega
      simp only [wrapperGo, hrec, hcyc, fireCycles]
      have hguard : (((N : Int) == -1) || decide ((count : Int) < (N : Int))) = true := by
        simp only [Bool.or_eq_true, beq_iff_eq, decide_eq_true_eq]
        right
        omega
      simp [hguard]
      omega
    · have hceq : count = N := by omega
      have hguard : (((N : Int) == -1) || decide ((count : Int) < (N : Int))) = false := by
        simp only [Bool.or_eq_false_iff, beq_eq_false_iff_ne, ne_eq, decide_eq_false_iff_not]
        constructor
        · omega
        · omega
      have hz : N - count = 0 := by omega
      simp [wrapperGo, hguard, hz, fireCycles]
      omega

/-- With the running flag held true and `repeat = -1`, the wrapper loop
never ends: it performs one sleep/fire iteration per unit of fuel. -/
theorem wrapperGo_true_inf :
    ∀ (fuel obs count : Nat),
      wrapperGo (fun _ => true) (-1) obs count fuel = (fireCycles fuel, false) := by
  intro fuel
  induction fuel with
  | zero => intro obs count; simp [wrapperGo, fireCycles]
  | succ f ih =>
    intro obs count
    simp [wrapperGo, ih (obs + 2) (count + 1), fireCycles]

/-- With `repeat = -1` and the running flag true for exactly the first
`T` observations (the flag is set false between observation `T - 1` and
observation `T`), the wrapper performs `(T - obs) / 2` full sleep/fire
iterations, then at most one further sleep (when the flag change lands
mid-sleep), and ends. -/
theorem wrapperGo_stopAt (T : Nat) :
    ∀ (fuel obs count : Nat), (T - obs) / 2 < fuel →
      wrapperGo (fun i => decide (i < T)) (-1) obs count fuel
        = (fireCycles ((T - obs) / 2)
            ++ (if (T - obs) % 2 = 1 then [SchedEv.sleep] else []), true) := by
  intro fuel
  induction fuel with
  | zero => intro obs count h; omega
  | succ f ih =>
    intro obs count h
    by_cases h0 : obs < T
    · by_cases h1 : obs + 1 < T
      · have hrec := ih (obs + 2) (count + 1) (by omega)
        have hq : (T - obs) / 2 = (T - (obs + 2)) / 2 + 1 := by omega
        have hm : (T - obs) % 2 = (T - (obs + 2)) % 2 := by omega
        simp [wrapperGo, h0, h1, hrec, hq, hm, fireCycles]
      · have hT : T - obs = 1 := by omega
        simp [wrapperGo, h0, h1, hT, fireCycles]
    · have hT : T - obs = 0 := by omega
      simp [wrapperGo, h0, hT, fireCycles]

/-- A trace of `n` full cycles contains exactly `n` firings. -/
theorem countFires_fireCycles (n : Nat) : countFires (fireCycles n) = n := by
  induction n with
  | zero => rfl
  | succ k ih => simp [fireCycles, countFires, List.countP_cons] at ih ⊢; omega

/-- A trace of `n` full cycles contains exactly `n` sleeps. -/
theorem countSleeps_fireCycles (n : Nat) : countSleeps (fireCycles n) = n := by
  induction n with
  | zero => rfl
  | succ k ih => simp [fireCycles, countSleeps, List.countP_cons] at ih ⊢; omega

/-- The dispatch scan invokes exactly the registration at the first
index whose filters all pass (`specFirstMatch`), provided every present
predicate returns an actual boolean on this sender. -/
theorem callLoop_first {S A : Type} [BEq A] (sender : S) (cmd : A)
    (cmdArgs args : List A) :
    ∀ (hs : List (HandlerReg S A)) (i : Nat),
      (∀ h ∈ hs, (match h.func with
                  | some f => (f sender).isBool
                  | Option.none => true) = true) →
      (callLoop sender cmd cmdArgs args hs i).map Prod.fst
        = (specFirstMatch sender cmd hs).map (fun n => n + i) := by
  intro hs
  induction hs with
  | nil => intro i _; rfl
  | cons h rest ih =>
    intro i hb
    obtain ⟨cmds, fn⟩ := h
    have hbh := hb ⟨cmds, fn⟩ (List.mem_cons_self _ _)
    have hbrest : ∀ h2 ∈ rest, (match h2.func with
        | some f => (f sender).isBool
        | Option.none => true) = true :=
      fun h2 hm => hb h2 (List.mem_cons_of_mem _ hm)
    have hrec := ih (i + 1) hbrest
    cases cmds with
    | none =>
      cases fn with
      | none =>
        simp [callLoop, specFirstMatch, specRegMatches]
      | some f =>
        simp only [] at hbh
        cases hfs : f sender with
        | bool b =>
          cases b with
          | true =>
            simp [callLoop, specFirstMatch, specRegMatches, hfs, PyVal.isFalse]
          | false =>
            simp [callLoop, specFirstMatch, specRegMatches, hfs, PyVal.isFalse,
              hrec, Option.map_map, Function.comp, Function.comp_def,
              Nat.add_assoc, Nat.add_comm, Nat.add_left_comm]
        | int v => rw [hfs] at hbh; simp [PyVal.isBool] at hbh
        | str s => rw [hfs] at hbh; simp [PyVal.isBool] at hbh
        | list l => rw [hfs] at hbh; simp [PyVal.isBool] at hbh
        | none => rw [hfs] at hbh; simp [PyVal.isBool] at hbh
    | some cs =>
      by_cases hc : cs.contains cmd = true
      · cases fn with
        | none =>
          simp [callLoop, specFirstMatch, specRegMatches, hc]
        | some f =>
          simp only [] at hbh
          cases hfs : f sender with
          | bool b =>
            cases b with
            | true =>
              simp [callLoop, specFirstMatch, specRegMatches, hc, hfs, PyVal.isFalse]
            | false =>
              simp [callLoop, specFirstMatch, specRegMatches, hc, hfs, PyVal.isFalse,
                hrec, Option.map_map, Function.comp, Function.comp_def,
                Nat.add_assoc, Nat.add_comm, Nat.add_left_comm]
          | int v => rw [hfs] at hbh; simp [PyVal.isBool] at hbh
          | str s => rw [hfs] at hbh; simp [PyVal.isBool] at hbh
          | list l => rw [hfs] at hbh; simp [PyVal.isBool] at hbh
          | none => rw [hfs] at hbh; simp [PyVal.isBool] at hbh
      · simp only [Bool.not_eq_true] at hc
        simp [callLoop, specFirstMatch, specRegMatches, hc, hrec, Option.map_map,
          Function.comp, Function.comp_def, Nat.add_assoc, Nat.add_comm,
          Nat.add_left_comm]

/-- A lone trailing sleep contains no firing. -/
theorem countFires_single_sleep : countFires [SchedEv.sleep] = 0 := rfl

/-- A lone trailing sleep counts as one sleep. -/
theorem countSleeps_single_sleep : countSleeps [SchedEv.sleep] = 1 := rfl

/-- Firing count distributes over trace concatenation. -/
theorem countFires_append (a b : List SchedEv) :
    countFires (a ++ b) = countFires a + countFires b :=
  List.countP_append _ _ _

/-- Sleep count distributes over trace concatenation. -/
theorem countSleeps_append (a b : List SchedEv) :
    countSleeps (a ++ b) = countSleeps a + countSleeps b :=
  List.countP_append _ _ _

/-! ### Claim theorems -/

/-- C1 (confirmed).  For every registration list, sender, and tokenized
input `cmd :: cmdArgs` in which every present predicate returns an
actual boolean on this sender, `_call_handlers` invokes exactly the
first registration whose command list (if present) contains `cmd` and
whose predicate (if present) returns `True` (`specFirstMatch`); a
registration whose predicate returns `False` is skipped and scanning
continues; no later matching registration is invoked (the scan stops at
the first match, and the result records the single invoked index). -/
theorem c1_dispatch_first_match {S A : Type} [BEq A]
    (hs : List (HandlerReg S A)) (sender : S) (cmd : A) (cmdArgs : List A)
    (hb : ∀ h ∈ hs, (match h.func with
                     | some f => (f sender).isBool
                     | Option.none => true) = true) :
    (callHandlers hs sender (cmd :: cmdArgs)).map (Option.map Prod.fst)
      = .ok (specFirstMatch sender cmd hs) := by
  simp only [callHandlers, Except.map]
  have h := callLoop_first sender cmd cmdArgs (cmd :: cmdArgs) hs 0 hb
  rw [h]
  simp

/-- C1 witness: two registrations for `!a`, the first with a
`False`-returning predicate; dispatch skips it and invokes the second. -/
theorem c1_dispatch_first_match_witness :
    (callHandlers (S := Unit) (A := String)
        [⟨some ["!a"], some (fun _ => PyVal.bool false)⟩, ⟨some ["!a"], Option.none⟩]
        () ["!a", "x"]).map (Option.map Prod.fst) = .ok (some 1) := by
  have h := c1_dispatch_first_match (S := Unit) (A := String)
      [⟨some ["!a"], some (fun _ => PyVal.bool false)⟩, ⟨some ["!a"], Option.none⟩]
      () "!a" ["x"] (by decide)
  rw [h]
  decide

/-- C2 (code_bug).  `send_message` on a disconnected client raises
`NotConnectedError`, as the claim says; but on a connected client with
no channel joined it does NOT raise a no-channel error: the code never
checks `self._channel` (the `IsNotInChannelError` class exists but is
raised nowhere), and `send_message("hi")` writes the line
`PRIVMSG #None :hi` to the server instead. -/
theorem c2_send_message_behavior :
    IRCClient.send_message ⟨Option.none, "bot", "tok", Option.none, false, false⟩ "hi"
      = .error .notConnectedError
    ∧ IRCClient.send_message ⟨some 3, "bot", "tok", Option.none, true, true⟩ "hi"
      = .ok ["PRIVMSG #None :hi\n"] := by
  constructor
  · rfl
  · rfl

/-- C3 counterexample: the line `":nick!n@x PRIVMSG #c :hi"` contains
`PRIVMSG` but has no `user-id=` tag; constructing a `Sender` from it
fails with `AttributeError` (there is no `MalformedEventError` in the
code), and the receive-loop body propagates that error instead of
catching and logging it — the run loop terminates on this single
unparseable line, contrary to the claim. -/
theorem c3_loop_crash_counterexample :
    Sender.init ":nick!n@x PRIVMSG #c :hi".data = .error .attributeError
    ∧ runLoopBody [] ":nick!n@x PRIVMSG #c :hi".data = .error .attributeError := by
  constructor
  · decide
  · decide

/-- C3 (corrected).  For every raw line containing `PRIVMSG` whose
`user-id=` tag is missing, `Sender` construction fails with an
`AttributeError` (not a `MalformedEventError`, which does not exist),
and the run-loop body does not catch the failure: the error escapes
`_run_task` and the receive loop terminates rather than logging the
line. -/
theorem c3_parse_failure_escapes (hs : List (HandlerReg Sender (List Char)))
    (resp : List Char)
    (h1 : hasPattern "PRIVMSG".data resp = true)
    (h2 : searchCapture "user-id=".data ';' resp = Option.none) :
    runLoopBody hs resp = .error .attributeError := by
  simp only [runLoopBody, h1, if_true, Sender.init, h2]

/-- C3 witness: a concrete `PRIVMSG` line with no `user-id=` tag crashes
the loop body. -/
theorem c3_parse_failure_escapes_witness :
    runLoopBody [] ":a!b PRIVMSG #z :q".data = .error .attributeError :=
  c3_parse_failure_escapes [] ":a!b PRIVMSG #z :q".data (by decide) (by decide)

/-- C4 (confirmed).  Scheduler wrapper semantics while the shared
running flag stays true throughout: with `repeat = 0` the loop ends at
once and the callback never fires (registered but inert); with
`repeat = N > 0` the trace is exactly `N` sleep/fire cycles (the
callback fires exactly `N` times, and the loop ends after the `N`-th
firing with no further sleep: sleeps = fires = `N`); with `repeat = -1`
the callback keeps firing once per interval for as long as the
simulation runs (`fuel` cycles for any fuel, the loop never ends). -/
theorem c4_repeat_semantics (N fuel : Nat) (hN : 0 < N) (hfuel : N < fuel) :
    wrapperGo (fun _ => true) 0 0 0 fuel = ([], true)
    ∧ wrapperGo (fun _ => true) (N : Int) 0 0 fuel = (fireCycles N, true)
    ∧ countFires (fireCycles N) = N
    ∧ countSleeps (fireCycles N) = N
    ∧ wrapperGo (fun _ => true) (-1) 0 0 fuel = (fireCycles fuel, false) := by
  refine ⟨?_, ?_, countFires_fireCycles N, countSleeps_fireCycles N,
    wrapperGo_true_inf fuel 0 0⟩
  · have h := wrapperGo_true_bounded 0 fuel 0 0 (Nat.le_refl 0) (by omega)
    simpa using h
  · have h := wrapperGo_true_bounded N fuel 0 0 (Nat.zero_le N) (by omega)
    simpa using h

/-- C4 witness: `repeat` of 0, 3, and -1 with fuel 5. -/
theorem c4_repeat_semantics_witness :
    wrapperGo (fun _ => true) 0 0 0 5 = ([], true)
    ∧ wrapperGo (fun _ => true) ((3 : Nat) : Int) 0 0 5 = (fireCycles 3, true)
    ∧ wrapperGo (fun _ => true) (-1) 0 0 5 = (fireCycles 5, false) := by
  have h := c4_repeat_semantics 3 5 (by decide) (by decide)
  exact ⟨h.1, h.2.1, h.2.2.2.2⟩

/-- C5 counterexample: the line `"badge-info=subscriber/7;subscriber=1;"`
contains both the substring `subscriber=1;` and the substring
`badge-info=subscriber/7;` demanded by the claim, yet the parsed
Subscription has months = 0, not 7: the code's tenure pattern requires
a leading `@` (`@badge-info=subscriber/`), which this line lacks. -/
theorem c5_tenure_counterexample :
    hasPattern "subscriber=1;".data "badge-info=subscriber/7;subscriber=1;".data = true
    ∧ hasPattern "badge-info=subscriber/7;".data "badge-info=subscriber/7;subscriber=1;".data = true
    ∧ Subscription.from_response "badge-info=subscriber/7;subscriber=1;".data = .ok ⟨true, 0⟩
    ∧ Subscription.from_response "badge-info=subscriber/7;subscriber=1;".data ≠ .ok ⟨true, 7⟩ := by
  refine ⟨by decide, by decide, by decide, by decide⟩

/-- C5 (corrected).  For every line whose first `subscriber=<v>;` tag
(the leftmost match of the code's pattern) carries `v = 1` and whose
leftmost `@badge-info=subscriber/<m>;` tag (the tenure tag must carry
the leading `@` the code's pattern requires) carries `m = 7`, the parsed
Subscription is (subscribed = true, months = 7); for every line whose
first `subscriber=` tag carries `0` and which has no
`@badge-info=subscriber/` match, the result is (subscribed = false,
months = 0) — absent tenure defaults to months = 0. -/
theorem c5_subscription_parse (resp : List Char) :
    (searchCapture "subscriber=".data ';' resp = some "1".data →
      searchCapture "@badge-info=subscriber/".data ';' resp = some "7".data →
      Subscription.from_response resp = .ok ⟨true, 7⟩)
    ∧ (searchCapture "subscriber=".data ';' resp = some "0".data →
      searchCapture "@badge-info=subscriber/".data ';' resp = Option.none →
      Subscription.from_response resp = .ok ⟨false, 0⟩) := by
  constructor
  · intro ha hb
    simp only [Subscription.from_response, ha, hb]
    rfl
  · intro ha hb
    simp only [Subscription.from_response, ha, hb]
    rfl

/-- C5 witness: a well-formed tag line with `@badge-info=subscriber/7;`
parses to (true, 7); one with `subscriber=0;` and no tenure tag parses
to (false, 0). -/
theorem c5_subscription_parse_witness :
    Subscription.from_response "@badge-info=subscriber/7;user-id=1;subscriber=1;".data
      = .ok ⟨true, 7⟩
    ∧ Subscription.from_response "user-id=2;subscriber=0;".data = .ok ⟨false, 0⟩ :=
  ⟨(c5_subscription_parse "@badge-info=subscriber/7;user-id=1;subscriber=1;".data).1
      (by decide) (by decide),
   (c5_subscription_parse "user-id=2;subscriber=0;".data).2 (by decide) (by decide)⟩

/-- C6 (confirmed).  A registration with no command list matches every
tokenized input, and its callback receives the full tokenized argument
list (`cmd :: cmdArgs`); an invoked registration with a command list
receives the arguments with the command word removed (`cmdArgs`). -/
theorem c6_catchall_and_args {S A : Type} [BEq A] (sender : S) (cmd : A)
    (cmdArgs : List A) (tl : List (HandlerReg S A)) :
    (∀ h : HandlerReg S A, h.commands = Option.none → h.func = Option.none →
        callHandlers (h :: tl) sender (cmd :: cmdArgs)
          = .ok (some (0, cmd :: cmdArgs)))
    ∧ (∀ (h : HandlerReg S A) (cs : List A), h.commands = some cs →
        h.func = Option.none → cs.contains cmd = true →
        callHandlers (h :: tl) sender (cmd :: cmdArgs)
          = .ok (some (0, cmdArgs))) := by
  constructor
  · intro h h1 h2
    simp [callHandlers, callLoop, h1, h2]
  · intro h cs h1 h2 h3
    simp [callHandlers, callLoop, h1, h2, h3]

/-- C6 witness: a catch-all registration is invoked on `["!x", "y"]`
with the full list; a `!x` registration is invoked with `["y"]`. -/
theorem c6_catchall_and_args_witness :
    callHandlers (S := Unit) (A := String) [⟨Option.none, Option.none⟩] () ["!x", "y"]
      = .ok (some (0, ["!x", "y"]))
    ∧ callHandlers (S := Unit) (A := String) [⟨some ["!x"], Option.none⟩] () ["!x", "y"]
      = .ok (some (0, ["y"])) :=
  ⟨(c6_catchall_and_args () "!x" ["y"] []).1 ⟨Option.none, Option.none⟩ rfl rfl,
   (c6_catchall_and_args () "!x" ["y"] []).2 ⟨some ["!x"], Option.none⟩ ["!x"]
      rfl rfl (by decide)⟩

/-- C7 (confirmed).  With `repeat = -1` and the running flag set false
between observation `T - 1` and observation `T` (true for the first `T`
observations, then false forever): the wrapper performs `T / 2` full
sleep/fire cycles, then — when the flag change lands mid-sleep — exactly
one more in-flight sleep completes and the wake-up observes the flag and
ends without firing; the task's loop ends, the callback never fires
after that point (fires = `T / 2`, total sleeps = `(T + 1) / 2`, so at
most one sleep beyond the fires), and `stop()` itself only clears the
running flag — it does not cancel or remove any task. -/
theorem c7_stop_semantics (T fuel : Nat) (hfuel : T < fuel) :
    wrapperGo (fun i => decide (i < T)) (-1) 0 0 fuel
      = (fireCycles (T / 2) ++ (if T % 2 = 1 then [SchedEv.sleep] else []), true)
    ∧ countFires (fireCycles (T / 2) ++ (if T % 2 = 1 then [SchedEv.sleep] else []))
        = T / 2
    ∧ countSleeps (fireCycles (T / 2) ++ (if T % 2 = 1 then [SchedEv.sleep] else []))
        = (T + 1) / 2
    ∧ countSleeps (fireCycles (T / 2) ++ (if T % 2 = 1 then [SchedEv.sleep] else []))
        ≤ countFires (fireCycles (T / 2) ++ (if T % 2 = 1 then [SchedEv.sleep] else [])) + 1
    ∧ (∀ (τ : Type) (s : Scheduler τ), (Scheduler.stop s).running = false
        ∧ (Scheduler.stop s).scheduled_tasks = s.scheduled_tasks) := by
  have htr := wrapperGo_stopAt T fuel 0 0 (by omega)
  simp only [Nat.sub_zero] at htr
  have hf : countFires (fireCycles (T / 2) ++ (if T % 2 = 1 then [SchedEv.sleep] else []))
      = T / 2 := by
    by_cases hodd : T % 2 = 1
    · simp [hodd, countFires_append, countFires_fireCycles, countFires_single_sleep]
    · simp [hodd, countFires_append, countFires_fireCycles]
  have hs : countSleeps (fireCycles (T / 2) ++ (if T % 2 = 1 then [SchedEv.sleep] else []))
      = (T + 1) / 2 := by
    by_cases hodd : T % 2 = 1
    · simp [hodd, countSleeps_append, countSleeps_fireCycles, countSleeps_single_sleep]
      omega
    · simp [hodd, countSleeps_append, countSleeps_fireCycles]
      omega
  refine ⟨htr, hf, hs, by omega, fun τ s => ⟨rfl, rfl⟩⟩

/-- C7 witness: flag true for the first 3 observations, fuel 4: one full
cycle fires, then one final in-flight sleep completes without a firing. -/
theorem c7_stop_semantics_witness :
    wrapperGo (fun i => decide (i < 3)) (-1) 0 0 4
      = (fireCycles (3 / 2) ++ (if 3 % 2 = 1 then [SchedEv.sleep] else []), true)
    ∧ countFires (fireCycles (3 / 2) ++ (if 3 % 2 = 1 then [SchedEv.sleep] else [])) = 3 / 2 :=
  ⟨(c7_stop_semantics 3 4 (by decide)).1, (c7_stop_semantics 3 4 (by decide)).2.1⟩

/-- C8 (code_bug).  `join_channel` with no open transport does NOT
surface a `NotConnectedError`: the `raise` sits inside the function's
own blanket `try/except Exception`, which catches it, logs, and returns
normally — nothing is sent, the channel stays unrecorded, and nothing
aborts startup.  With an open transport it sends the join line and
records the channel, as the claim says. -/
theorem c8_join_channel_behavior :
    IRCClient.join_channel ⟨Option.none, "bot", "tok", Option.none, false, false⟩ "chan"
      = (⟨Option.none, "bot", "tok", Option.none, false, false⟩, [])
    ∧ IRCClient.join_channel ⟨some 3, "bot", "tok", Option.none, true, true⟩ "chan"
      = (⟨some 3, "bot", "tok", some "chan", true, true⟩, ["JOIN #chan\n"]) := by
  constructor
  · rfl
  · rfl

/-- C9 (confirmed).  `connect()` is idempotent: after any `connect` the
client is connected, a second `connect` writes nothing and leaves the
state unchanged, and the three-line handshake (capability request,
credential, nickname) is written exactly once — on the first call when
initially disconnected, and never when already connected. -/
theorem c9_connect_idempotent (st : IRCClient) :
    IRCClient.connect (IRCClient.connect st).1 = ((IRCClient.connect st).1, [])
    ∧ (IRCClient.connect st).1.is_connected = true
    ∧ (st.is_connected = false → (IRCClient.connect st).2 = st.handshakeLines)
    ∧ (st.is_connected = true → IRCClient.connect st = (st, [])) := by
  by_cases h : st.is_connected = true
  · simp [IRCClient.connect, h]
  · simp only [Bool.not_eq_true] at h
    have hc1 : IRCClient.connect st
        = ({ st with sock := some 0, reader := true, writer := true }, st.handshakeLines) := by
      simp [IRCClient.connect, h]
    have hc2 : ({ st with sock := some 0, reader := true, writer := true } :
        IRCClient).is_connected = true := rfl
    refine ⟨?_, ?_, ?_, ?_⟩
    · rw [hc1]
      simp [IRCClient.connect, hc2]
    · rw [hc1]
      exact hc2
    · intro _
      rw [hc1]
    · intro hcon
      rw [h] at hcon
      cases hcon

/-- C9 witness: from a fresh disconnected client, the first `connect`
writes the handshake and the result is connected. -/
theorem c9_connect_idempotent_witness :
    ((IRCClient.connect ⟨Option.none, "bot", "tok", Option.none, false, false⟩).1).is_connected
      = true
    ∧ (IRCClient.connect ⟨Option.none, "bot", "tok", Option.none, false, false⟩).2
      = ["CAP REQ :twitch.tv/tags\n", "PASS tok\n", "NICK bot\n"] := by
  have h := c9_connect_idempotent ⟨Option.none, "bot", "tok", Option.none, false, false⟩
  exact ⟨h.2.1, (h.2.2.1 rfl).trans rfl⟩

/-- C10 (confirmed).  The dispatcher skips a registration only when its
predicate's result is the exact boolean `False` (Python's `is False`
identity test): a predicate returning any other falsy value — `0`,
`None`, the empty string, the empty list — passes, and the handler is
invoked; a predicate returning `False` is skipped (here with no further
registrations, so nothing is invoked). -/
theorem c10_predicate_identity_false {S : Type} (sender : S) (cmd : String)
    (cmdArgs : List String) (tl : List (HandlerReg S String)) :
    (∀ f : S → PyVal, (f sender).isFalse = false →
        callHandlers (⟨Option.none, some f⟩ :: tl) sender (cmd :: cmdArgs)
          = .ok (some (0, cmd :: cmdArgs)))
    ∧ PyVal.isFalse (.int 0) = false
    ∧ PyVal.isFalse .none = false
    ∧ PyVal.isFalse (.str "") = false
    ∧ PyVal.isFalse (.list []) = false
    ∧ PyVal.isFalse (.bool false) = true
    ∧ (∀ f : S → PyVal, (f sender).isFalse = true →
        callHandlers [(⟨Option.none, some f⟩ : HandlerReg S String)] sender (cmd :: cmdArgs)
          = .ok Option.none) := by
    refine ⟨?_, rfl, rfl, rfl, rfl, rfl, ?_⟩
    · intro f hf
      simp [callHandlers, callLoop, hf]
    · intro f hf
      simp [callHandlers, callLoop, hf]

/-- C10 witness: a predicate returning the falsy non-`False` value `0`
does not block dispatch; one returning `False` does. -/
theorem c10_predicate_identity_false_witness :
    callHandlers [(⟨Option.none, some (fun _ => PyVal.int 0)⟩ : HandlerReg Unit String)]
        () ["!a"] = .ok (some (0, ["!a"]))
    ∧ callHandlers [(⟨Option.none, some (fun _ => PyVal.bool false)⟩ : HandlerReg Unit String)]
        () ["!a"] = .ok Option.none :=
  ⟨(c10_predicate_identity_false () "!a" [] []).1 (fun _ => PyVal.int 0) rfl,
   (c10_predicate_identity_false () "!a" [] []).2.2.2.2.2.2 (fun _ => PyVal.bool false) rfl⟩
